import Mathlib

/-!
Shallow embedding of the datahaven-demo-dapp bucket workflows.

The embedded code:
* `src/pages/Buckets.tsx` (source file `part_002`): `loadBuckets`,
  `handleCreateBucket`, `handleDeleteBucket`, `getProgressSteps`.
* `src/context/AppContext.tsx` (source file `part_003`): the module-level
  `wasmInitialized` flag, `connectWallet`, `disconnect`, `connectMsp`,
  `authenticateUser` and the mount-time `restoreSession` effect.

The async service calls (`createBucket`, `verifyBucketCreation`,
`waitForBackendBucketReady`, `deleteBucket`, `getBucketsFromMSP`,
`initWasm`, wallet/MSP services) live outside `src/`; each handler is
modelled as a pure function from an environment recording the outcome of
each awaited call (success value or thrown error) to the resulting
component state together with the trace of observable events (service
invocations and `setCreateProgress` emissions), in the exact order the
source performs them.  JavaScript is single-threaded, so one handler run
is one sequential execution.
-/

/-- A thrown JavaScript value as the handlers' `catch` blocks see it:
either an `Error` instance carrying a message, or any other value
(`err instanceof Error` is false). -/
inductive JsErr
  | jsError (msg : String)
  | nonError
deriving DecidableEq, Repr

/-- JavaScript `err instanceof Error ? err.message : fallback` — the expression every
catch block in `Buckets.tsx` and `AppContext.tsx` uses. -/
def errMsgOr (fallback : String) : JsErr → String
  | .jsError m => m
  | .nonError => fallback

/-- ECMAScript whitespace recognised by `String.prototype.trim`
(WhiteSpace and LineTerminator code points; the Zs block is represented
by its common members). -/
def isJsWhitespace (c : Char) : Bool :=
  c = ' ' || c = '\t' || c = '\n' || c = '\r' || c = '\x0b' || c = '\x0c' ||
  c = ' ' || c = ' ' || c = ' ' || c = '﻿'

/-- JavaScript `String.prototype.trim`: strips leading and trailing
whitespace. -/
def jsTrim (s : String) : String :=
  String.mk (((s.data.dropWhile isJsWhitespace).reverse.dropWhile isJsWhitespace).reverse)

/-- The `step` field of `BucketCreationProgress`
(`src/types/index.ts`): `'idle' | 'creating' | 'verifying' | 'waiting' |
'done' | 'error'`. -/
inductive Step
  | idle
  | creating
  | verifying
  | waiting
  | done
  | error
deriving DecidableEq, Repr

/-- Type `BucketCreationProgress`: the `createProgress` state of the Buckets
page, a step tag plus a human-readable message. -/
structure BucketCreationProgress where
  step : Step
  message : String
deriving DecidableEq, Repr

/-- Type `Bucket` as the listing uses it: id plus display name. -/
structure Bucket where
  bucketId : String
  name : String
deriving DecidableEq, Repr

/-- Type `BucketInfo` (`src/types/index.ts`): the detail record shown for a
selected bucket. -/
structure BucketInfo where
  bucketId : String
  userId : String
  mspId : String
  isPrivate : Bool
  root : String
  valuePropositionId : String
deriving DecidableEq, Repr

/-- Observable events of one handler run, in program order: the awaited
service invocations and every `setCreateProgress` call (the progress
observer), plus the `setTimeout` that schedules the later reset to
`idle`. -/
inductive Ev
  | callCreate (name : String)
  | callVerify (bucketId : String)
  | callWait (bucketId : String)
  | callDelete (bucketId : String)
  | callList
  | emitStep (s : Step) (message : String)
  | scheduleReset
deriving DecidableEq, Repr

/-- The progress-step sequence an observer of `setCreateProgress`
receives during a run. -/
def emits (tr : List Ev) : List Step :=
  tr.filterMap fun e =>
    match e with
    | .emitStep s _ => some s
    | _ => none

/-- The service calls of a trace (chain submissions, on-chain
verification, backend waits, backend listing queries). -/
def svcCalls (tr : List Ev) : List Ev :=
  tr.filter fun e =>
    match e with
    | .callCreate _ => true
    | .callVerify _ => true
    | .callWait _ => true
    | .callDelete _ => true
    | .callList => true
    | _ => false

/-- The component state of the `Buckets` page: its `useState` cells,
plus the `isMspConnected` flag read from the app context. -/
structure PageState where
  buckets : List Bucket
  selectedBucket : Option BucketInfo
  selectedBucketId : Option String
  isLoadingBuckets : Bool
  isLoadingBucketInfo : Bool
  isDeleting : Option String
  errorMsg : Option String
  bucketName : String
  createProgress : BucketCreationProgress
  isMspConnected : Bool
deriving DecidableEq, Repr

/-- Outcomes of the awaited service calls during one `handleCreateBucket`
run: `createBucket` (returns `{ bucketId }` or throws), `verifyBucketCreation`
(returns a `BucketInfo` or throws), `waitForBackendBucketReady` (resolves
or throws), and `getBucketsFromMSP` as invoked by the trailing
`loadBuckets`. -/
structure CreateEnv where
  createRes : Except JsErr String
  verifyRes : Except JsErr BucketInfo
  waitRes : Except JsErr Unit
  listRes : Except JsErr (List Bucket)
deriving Repr

/-- Embeds `loadBuckets` (`Buckets.tsx` lines 34-46): returns early when the MSP
is not connected; otherwise sets the loading flag, clears the error,
queries `getBucketsFromMSP`, stores the data or records the error
message, and clears the loading flag. -/
def loadBuckets (listRes : Except JsErr (List Bucket)) (st : PageState) :
    PageState × List Ev :=
  if !st.isMspConnected then (st, [])
  else
    let st1 := { st with isLoadingBuckets := true, errorMsg := none }
    match listRes with
    | .ok data =>
        ({ st1 with buckets := data, isLoadingBuckets := false }, [.callList])
    | .error e =>
        ({ st1 with errorMsg := some (errMsgOr "Failed to load buckets" e),
                    isLoadingBuckets := false }, [.callList])

/-- The `catch` block of `handleCreateBucket` (lines 98-104):
`setCreateProgress({step:'error', message})` then `setError(message)`. -/
def createCatch (e : JsErr) (st : PageState) : PageState :=
  let m := errMsgOr "Failed to create bucket" e
  { st with createProgress := ⟨.error, m⟩, errorMsg := some m }

/-- Embeds `handleCreateBucket` (`Buckets.tsx` lines 68-105).  Guard: return if
`bucketName.trim()` is empty.  Then `setError(null)` and the phased
sequence: emit `creating` / await `createBucket(bucketName)`, emit
`verifying` / await `verifyBucketCreation(bucketId)`, emit `waiting` /
await `waitForBackendBucketReady(bucketId)`, emit `done`, clear the name
field, `await loadBuckets()`, and schedule the delayed reset to `idle`.
Any throw lands in the shared catch. -/
def handleCreateBucket (env : CreateEnv) (st : PageState) :
    PageState × List Ev :=
  if jsTrim st.bucketName = "" then (st, [])
  else
    let st0 := { st with errorMsg := none }
    let st1 := { st0 with createProgress := ⟨.creating, "Creating bucket on-chain..."⟩ }
    let tr1 : List Ev := [.emitStep .creating "Creating bucket on-chain...",
                          .callCreate st.bucketName]
    match env.createRes with
    | .error e => (createCatch e st1, tr1 ++ [.emitStep .error (errMsgOr "Failed to create bucket" e)])
    | .ok bucketId =>
      let st2 := { st1 with createProgress := ⟨.verifying, "Verifying bucket on-chain..."⟩ }
      let tr2 := tr1 ++ [.emitStep .verifying "Verifying bucket on-chain...",
                         .callVerify bucketId]
      match env.verifyRes with
      | .error e => (createCatch e st2, tr2 ++ [.emitStep .error (errMsgOr "Failed to create bucket" e)])
      | .ok _ =>
        let st3 := { st2 with createProgress := ⟨.waiting, "Waiting for backend to index..."⟩ }
        let tr3 := tr2 ++ [.emitStep .waiting "Waiting for backend to index...",
                           .callWait bucketId]
        match env.waitRes with
        | .error e => (createCatch e st3, tr3 ++ [.emitStep .error (errMsgOr "Failed to create bucket" e)])
        | .ok _ =>
          let st4 := { st3 with createProgress := ⟨.done, "Bucket created successfully!"⟩, bucketName := "" }
          let tr4 := tr3 ++ [.emitStep .done "Bucket created successfully!"]
          let r := loadBuckets env.listRes st4
          (r.1, tr4 ++ r.2 ++ [.scheduleReset])

/-- Outcomes of the awaited calls during one `handleDeleteBucket` run:
`deleteBucket` and the `getBucketsFromMSP` of the following
`loadBuckets`. -/
structure DeleteEnv where
  deleteRes : Except JsErr Unit
  listRes : Except JsErr (List Bucket)
deriving Repr

/-- Embeds `handleDeleteBucket` (`Buckets.tsx` lines 107-124).  Returns if the
`confirm` prompt was declined; otherwise marks the row as deleting,
clears the error, awaits `deleteBucket(bucketId)`, refreshes the listing
via `loadBuckets`, clears the selection if it pointed at the deleted
bucket, records the error message on a throw, and always clears the
deleting mark. -/
def handleDeleteBucket (confirmed : Bool) (env : DeleteEnv)
    (bucketId : String) (st : PageState) : PageState × List Ev :=
  if !confirmed then (st, [])
  else
    let st1 := { st with isDeleting := some bucketId, errorMsg := none }
    match env.deleteRes with
    | .error e =>
        ({ st1 with errorMsg := some (errMsgOr "Failed to delete bucket" e),
                    isDeleting := none }, [.callDelete bucketId])
    | .ok _ =>
        let r := loadBuckets env.listRes st1
        let st3 :=
          if r.1.selectedBucketId = some bucketId then
            { r.1 with selectedBucket := none, selectedBucketId := none }
          else r.1
        ({ st3 with isDeleting := none }, .callDelete bucketId :: r.2)

/-- Status of one rendered progress step
(`'pending' | 'active' | 'completed' | 'error'`). -/
inductive StepStatus
  | pending
  | active
  | completed
  | error
deriving DecidableEq, Repr

/-- The `stepMap` lookup of `getProgressSteps` with the `?? -1` default:
`{creating: 0, verifying: 1, waiting: 2, done: 3}`, `-1` otherwise. -/
def stepMapIndex : Step → Int
  | .creating => 0
  | .verifying => 1
  | .waiting => 2
  | .done => 3
  | _ => -1

/-- Embeds `getProgressSteps` (`Buckets.tsx` lines 126-154): four labelled steps,
each assigned `'error'` when the current step is `error` AND the index
equals `currentStep`, else `'completed'` below `currentStep`, `'active'`
at it, `'pending'` above it. -/
def getProgressSteps (s : Step) : List (String × StepStatus) :=
  let labels := ["Creating bucket on-chain...", "Verifying on-chain...",
                 "Waiting for backend...", "Done!"]
  let currentStep := stepMapIndex s
  labels.enum.map fun p =>
    (p.2,
      if s = Step.error ∧ (p.1 : Int) = currentStep then StepStatus.error
      else if (p.1 : Int) < currentStep then StepStatus.completed
      else if (p.1 : Int) = currentStep then StepStatus.active
      else StepStatus.pending)

/-- Modelled from the spec: the implementation of
`waitForBackendBucketReady` lives in `src/services/bucketOperations.ts`,
which is not among the provided sources.  Per §4.1 phase 3 it repeatedly
queries the backend for the resource until the returned BackendView's
content/root matches the LedgerRecord's root or the wait budget elapses;
a missing record (`NotFoundYet`) or a stale root is "not yet ready".
`polls` is the sequence of backend views observed within the budget
(`none` = not found, `some r` = a view with root `r`); the wait resolves
iff some poll matched the ledger root, and otherwise throws the timeout
error. -/
def waitForBackendBucketReady (ledgerRoot : String)
    (polls : List (Option String)) : Except JsErr Unit :=
  if polls.any (fun v => v == some ledgerRoot) then Except.ok ()
  else Except.error (.jsError "Timed out waiting for backend to index bucket")

/-- Type `AppState` (`src/types/index.ts`): the context state of
`AppProvider`.  `InfoResponse` and `UserInfo` payloads are opaque here
and represented by strings. -/
structure AppState where
  isWalletConnected : Bool
  isMspConnected : Bool
  isAuthenticated : Bool
  address : Option String
  mspInfo : Option String
  userProfile : Option String
deriving DecidableEq, Repr

/-- The initial `useState` value of `AppProvider`
(`AppContext.tsx` lines 65-72). -/
def initialAppState : AppState :=
  { isWalletConnected := false, isMspConnected := false,
    isAuthenticated := false, address := none, mspInfo := none,
    userProfile := none }

/-- Observable service invocations of the `AppProvider` operations. -/
inductive AppEv
  | callInitWasm
  | callWalletConnect
  | callInitApi
  | callRestoreWallet
  | callConnectMsp
  | callAuth
deriving DecidableEq, Repr

/-- Outcomes of the calls `connectWallet` awaits: `initWasm` (succeeds or
throws), `connectWalletService` (address or throw), `initPolkadotApi`
(succeeds or throws). -/
structure ConnectWalletEnv where
  initWasmOk : Bool
  walletRes : Except JsErr String
  apiOk : Bool
deriving Repr

/-- The tail of `connectWallet` after the WASM-init guard: await
`connectWalletService()`, await `initPolkadotApi()`, then set
`isWalletConnected` and `address`; a throw is caught (sets the error
message and rethrows) leaving the state untouched. -/
def connectWalletTail (env : ConnectWalletEnv) (w : Bool) (st : AppState)
    (tr : List AppEv) : Bool × AppState × List AppEv :=
  match env.walletRes with
  | .error _ => (w, st, tr ++ [.callWalletConnect])
  | .ok a =>
    if !env.apiOk then (w, st, tr ++ [.callWalletConnect, .callInitApi])
    else (w, { st with isWalletConnected := true, address := some a },
          tr ++ [.callWalletConnect, .callInitApi])

/-- Embeds `connectWallet` (`AppContext.tsx` lines 78-103).  `w` is the
module-level `wasmInitialized` flag: when clear, `initWasm()` is awaited
and on success the flag is set (a throw leaves it clear and aborts the
call); then the wallet service and Polkadot API are initialised and the
state updated. -/
def connectWallet (env : ConnectWalletEnv) (w : Bool) (st : AppState) :
    Bool × AppState × List AppEv :=
  if !w then
    if !env.initWasmOk then (false, st, [.callInitWasm])
    else connectWalletTail env true st [.callInitWasm]
  else connectWalletTail env w st []

/-- Embeds `disconnect` (`AppContext.tsx` lines 105-116): calls the wallet and
MSP disconnect services and resets the context state to the initial
value.  The `wasmInitialized` flag is not touched. -/
def disconnect (w : Bool) (st : AppState) : Bool × AppState × List AppEv :=
  (w, initialAppState, [])

/-- Outcome of the calls `connectMsp` awaits (`connectToMsp` and
`getMspInfo` collapsed into one success flag plus the info payload). -/
structure ConnectMspEnv where
  mspOk : Bool
  info : String
deriving Repr

/-- Embeds `connectMsp` (`AppContext.tsx` lines 118-137): on success sets
`isMspConnected` and `mspInfo`; a throw leaves the state untouched. -/
def connectMsp (env : ConnectMspEnv) (w : Bool) (st : AppState) :
    Bool × AppState × List AppEv :=
  if env.mspOk then
    (w, { st with isMspConnected := true, mspInfo := some env.info },
     [.callConnectMsp])
  else (w, st, [.callConnectMsp])

/-- Embeds `authenticateUser` (`AppContext.tsx` lines 139-157): on success sets
`isAuthenticated` and `userProfile`; a throw leaves the state
untouched. -/
def authenticateUser (authRes : Except JsErr String) (w : Bool)
    (st : AppState) : Bool × AppState × List AppEv :=
  match authRes with
  | .ok p => (w, { st with isAuthenticated := true, userProfile := some p },
              [.callAuth])
  | .error _ => (w, st, [.callAuth])

/-- Outcomes of the calls the mount-time `restoreSession` awaits:
the persisted address from storage, `initWasm`, `restoreWalletConnection`
(an address, `null`, or a throw), `initPolkadotApi`, the synchronous
`isAuthenticated()` / `getUserProfile()` reads, and the MSP
reconnection. -/
structure RestoreEnv where
  persisted : Option String
  initWasmOk : Bool
  restoreRes : Except JsErr (Option String)
  apiOk : Bool
  isAuth : Bool
  profile : Option String
  mspOk : Bool
  info : String
deriving Repr

/-- The body of `restoreSession` after the WASM-init guard
(`AppContext.tsx` lines 186-219): restore the wallet connection (a
`null` result or any throw leaves the state untouched — the catch block
swallows), initialise the API, then either rebuild the full
authenticated state (reconnecting to the MSP) or set only the wallet
fields. -/
def restoreSessionTail (env : RestoreEnv) (w : Bool) (st : AppState)
    (tr : List AppEv) : Bool × AppState × List AppEv :=
  match env.restoreRes with
  | .error _ => (w, st, tr ++ [.callRestoreWallet])
  | .ok none => (w, st, tr ++ [.callRestoreWallet])
  | .ok (some a) =>
    if !env.apiOk then (w, st, tr ++ [.callRestoreWallet, .callInitApi])
    else if env.isAuth then
      if env.mspOk then
        (w, { isWalletConnected := true, isMspConnected := true,
              isAuthenticated := true, address := some a,
              mspInfo := some env.info, userProfile := env.profile },
         tr ++ [.callRestoreWallet, .callInitApi, .callConnectMsp])
      else (w, st, tr ++ [.callRestoreWallet, .callInitApi, .callConnectMsp])
    else
      (w, { st with isWalletConnected := true, address := some a },
       tr ++ [.callRestoreWallet, .callInitApi])

/-- Embeds `restoreSession` (`AppContext.tsx` lines 170-228): returns at once
when nothing is persisted; otherwise runs the same WASM-init guard as
`connectWallet` (a throw is swallowed by the catch) and then the restore
body. -/
def restoreSession (env : RestoreEnv) (w : Bool) (st : AppState) :
    Bool × AppState × List AppEv :=
  match env.persisted with
  | none => (w, st, [])
  | some _ =>
    if !w then
      if !env.initWasmOk then (false, st, [.callInitWasm])
      else restoreSessionTail env true st [.callInitWasm]
    else restoreSessionTail env w st []

/-- One invocation of an `AppProvider` operation together with the
outcomes of the external calls it awaits. -/
inductive AppOp
  | opConnectWallet (env : ConnectWalletEnv)
  | opDisconnect
  | opConnectMsp (env : ConnectMspEnv)
  | opAuthenticate (authRes : Except JsErr String)
  | opRestoreSession (env : RestoreEnv)
deriving Repr

/-- Dispatch one operation on the `wasmInitialized` flag and context
state. -/
def appStep (op : AppOp) (w : Bool) (st : AppState) :
    Bool × AppState × List AppEv :=
  match op with
  | .opConnectWallet env => connectWallet env w st
  | .opDisconnect => disconnect w st
  | .opConnectMsp env => connectMsp env w st
  | .opAuthenticate authRes => authenticateUser authRes w st
  | .opRestoreSession env => restoreSession env w st

/-- Run a sequence of operations from a given flag and state,
concatenating the event traces. -/
def appRunFrom (w : Bool) (st : AppState) :
    List AppOp → Bool × AppState × List AppEv
  | [] => (w, st, [])
  | op :: ops =>
    let r1 := appStep op w st
    let r2 := appRunFrom r1.1 r1.2.1 ops
    (r2.1, r2.2.1, r1.2.2 ++ r2.2.2)

/-- Run a sequence of operations from process start: `wasmInitialized`
clear and the initial context state. -/
def appRun (ops : List AppOp) : Bool × AppState × List AppEv :=
  appRunFrom false initialAppState ops

/-- Number of `initWasm` invocations in a trace. -/
def initWasmCalls (tr : List AppEv) : Nat :=
  (tr.filter (fun e => e == AppEv.callInitWasm)).length

/-- An operation whose own `initWasm` call (if it makes one) succeeds. -/
def opInitOk : AppOp → Bool
  | .opConnectWallet env => env.initWasmOk
  | .opRestoreSession env => env.initWasmOk
  | _ => true

/-! Concrete fixtures used by witnesses and counterexamples. -/

/-- A Buckets-page state as it stands when the user has typed the name
`docs` with the MSP connected and nothing in flight. -/
def sampleState : PageState :=
  { buckets := [], selectedBucket := none, selectedBucketId := none,
    isLoadingBuckets := false, isLoadingBucketInfo := false,
    isDeleting := none, errorMsg := none, bucketName := "docs",
    createProgress := ⟨.idle, ""⟩, isMspConnected := true }

/-- A concrete `BucketInfo` as `verifyBucketCreation` returns it. -/
def sampleInfo : BucketInfo :=
  { bucketId := "B1", userId := "u1", mspId := "m1", isPrivate := false,
    root := "0xaa", valuePropositionId := "v1" }

/-- A `connectWallet` environment in which every awaited call succeeds. -/
def cwEnvOk : ConnectWalletEnv :=
  { initWasmOk := true, walletRes := .ok "addr1", apiOk := true }

/-- A `connectWallet` environment in which `initWasm` throws. -/
def cwEnvInitFails : ConnectWalletEnv :=
  { initWasmOk := false, walletRes := .ok "addr1", apiOk := true }

/-! Helper lemmas shared by the claim theorems. -/

/-- Lemma: `loadBuckets` never calls `setCreateProgress`: the listing refresh
emits no progress step. -/
theorem emits_loadBuckets (listRes : Except JsErr (List Bucket))
    (st : PageState) : emits (loadBuckets listRes st).2 = [] := by
  unfold loadBuckets
  cases h : st.isMspConnected <;> cases listRes <;> simp [emits]

/-- The trailing `loadBuckets` of a successful creation run leaves the
`createProgress` cell untouched. -/
theorem createProgress_loadBuckets (listRes : Except JsErr (List Bucket))
    (st : PageState) :
    (loadBuckets listRes st).1.createProgress = st.createProgress := by
  unfold loadBuckets
  cases h : st.isMspConnected <;> cases listRes <;> simp

/-- C9: `getProgressSteps` is a total function of the progress step that
always returns exactly four steps, at most one of which is `active` or
`error`; for `creating`/`verifying`/`waiting`/`done` (indices 0..3) the
steps before the current index are `completed`, the current index is
`active` and the rest `pending`; for `idle` and `error` all four steps
are `pending` — in particular no step is ever rendered with status
`error` (the `?? -1` default sends `error` to index `-1`, which no step
index equals). -/
theorem getProgressSteps_spec :
    (∀ s : Step, (getProgressSteps s).length = 4 ∧
      ((getProgressSteps s).filter fun p =>
        p.2 == StepStatus.active || p.2 == StepStatus.error).length ≤ 1 ∧
      ((getProgressSteps s).filter fun p =>
        p.2 == StepStatus.error).length = 0) ∧
    (getProgressSteps .creating).map Prod.snd
      = [.active, .pending, .pending, .pending] ∧
    (getProgressSteps .verifying).map Prod.snd
      = [.completed, .active, .pending, .pending] ∧
    (getProgressSteps .waiting).map Prod.snd
      = [.completed, .completed, .active, .pending] ∧
    (getProgressSteps .done).map Prod.snd
      = [.completed, .completed, .completed, .active] ∧
    (getProgressSteps .idle).map Prod.snd
      = [.pending, .pending, .pending, .pending] ∧
    (getProgressSteps .error).map Prod.snd
      = [.pending, .pending, .pending, .pending] := by
  refine ⟨fun s => ?_, by decide, by decide, by decide, by decide, by decide, by decide⟩
  cases s <;> exact ⟨by decide, by decide, by decide⟩

/-- C6: a name that is empty after trimming aborts `handleCreateBucket`
before any effect: `createBucket` is never called (the run performs no
event at all) and the whole page state — in particular `createProgress` —
is left at its prior value. -/
theorem createBucket_empty_name_noop (env : CreateEnv) (st : PageState)
    (hname : jsTrim st.bucketName = "") :
    (handleCreateBucket env st).1 = st ∧
    (handleCreateBucket env st).2 = [] ∧
    ∀ n, Ev.callCreate n ∉ (handleCreateBucket env st).2 := by
  unfold handleCreateBucket
  rw [if_pos hname]
  exact ⟨rfl, rfl, by simp⟩

/-- Witness for C6 at the whitespace-only name `"  "`: the run changes
nothing and performs no call. -/
theorem createBucket_empty_name_noop_witness :
    (handleCreateBucket ⟨.ok "B1", .ok sampleInfo, .ok (), .ok []⟩
        { sampleState with bucketName := "  " }).1
      = { sampleState with bucketName := "  " } ∧
    (handleCreateBucket ⟨.ok "B1", .ok sampleInfo, .ok (), .ok []⟩
        { sampleState with bucketName := "  " }).2 = [] :=
  ⟨(createBucket_empty_name_noop _ _ (by decide)).1,
   (createBucket_empty_name_noop _ _ (by decide)).2.1⟩

/-- C1: in every `handleCreateBucket` run in which `createBucket`,
`verifyBucketCreation` and `waitForBackendBucketReady` all succeed (the
name being non-empty after trimming, so the workflow actually runs), the
progress observer receives exactly the step sequence
`creating, verifying, waiting, done`, in that order, with no step
repeated, duplicated or out of order.  (The delayed reset to `idle` is
only scheduled — `scheduleReset` — and fires two seconds after the run
resolves.) -/
theorem createBucket_success_phases (st : PageState) (bucketId : String)
    (info : BucketInfo) (listRes : Except JsErr (List Bucket))
    (hname : jsTrim st.bucketName ≠ "") :
    emits (handleCreateBucket ⟨.ok bucketId, .ok info, .ok (), listRes⟩ st).2
      = [Step.creating, Step.verifying, Step.waiting, Step.done] := by
  unfold handleCreateBucket
  rw [if_neg hname]
  cases hm : st.isMspConnected <;> cases listRes <;>
    simp [loadBuckets, emits, hm]

/-- Witness for C1: the spec's scenario intent `{name:"docs"}` with
every call succeeding yields exactly the four phases. -/
theorem createBucket_success_phases_witness :
    emits (handleCreateBucket ⟨.ok "B1", .ok sampleInfo, .ok (), .ok []⟩
        sampleState).2
      = [Step.creating, Step.verifying, Step.waiting, Step.done] :=
  createBucket_success_phases sampleState "B1" sampleInfo (.ok []) (by decide)

/-- C2: with the backend wait modelled from the spec
(`waitForBackendBucketReady` resolves iff some poll observed a
BackendView whose root matches the LedgerRecord's root), a
`handleCreateBucket` run reports the `done` phase only if the wait
resolved successfully — that is, only if the backend was observed
consistent with the ledger at least once; a run whose polls never match
never reports `done`. -/
theorem createBucket_done_needs_backend_consistency (st : PageState)
    (cRes : Except JsErr String) (vRes : Except JsErr BucketInfo)
    (lRes : Except JsErr (List Bucket)) (ledgerRoot : String)
    (polls : List (Option String))
    (hdone : Step.done ∈ emits (handleCreateBucket
        ⟨cRes, vRes, waitForBackendBucketReady ledgerRoot polls, lRes⟩ st).2) :
    waitForBackendBucketReady ledgerRoot polls = .ok () ∧
    polls.any (fun v => v == some ledgerRoot) = true := by
  by_cases hmatch : polls.any (fun v => v == some ledgerRoot) = true
  · exact ⟨by simp [waitForBackendBucketReady, hmatch], hmatch⟩
  · exfalso
    have hw : waitForBackendBucketReady ledgerRoot polls
        = .error (.jsError "Timed out waiting for backend to index bucket") := by
      simp [waitForBackendBucketReady, hmatch]
    rw [hw] at hdone
    unfold handleCreateBucket at hdone
    by_cases hname : jsTrim st.bucketName = ""
    · rw [if_pos hname] at hdone
      simp [emits] at hdone
    · rw [if_neg hname] at hdone
      cases cRes <;> cases vRes <;> simp [emits] at hdone

/-- Witness for C2 at the spec's scenario: ledger root `0xaa`, polls
`NotFoundYet, NotFoundYet, {root: 0xaa}` — the run reports `done` and
the wait indeed observed a matching view. -/
theorem createBucket_done_needs_backend_consistency_witness :
    waitForBackendBucketReady "0xaa" [none, none, some "0xaa"] = .ok () ∧
    List.any [none, none, some "0xaa"] (fun v => v == some "0xaa") = true :=
  createBucket_done_needs_backend_consistency sampleState (.ok "B1")
    (.ok sampleInfo) (.ok []) "0xaa" [none, none, some "0xaa"] (by decide)

/-- C3: when `createBucket` throws, the run fails in the submitting
phase: `verifyBucketCreation` and `waitForBackendBucketReady` are never
invoked (no backend listing query happens either), the observer's final
emission is the `error` step, and the final `createProgress` state is
the `error` phase. -/
theorem createBucket_submit_failure_stops (st : PageState) (e : JsErr)
    (vRes : Except JsErr BucketInfo) (wRes : Except JsErr Unit)
    (lRes : Except JsErr (List Bucket))
    (hname : jsTrim st.bucketName ≠ "") :
    (∀ b, Ev.callVerify b ∉
        (handleCreateBucket ⟨.error e, vRes, wRes, lRes⟩ st).2) ∧
    (∀ b, Ev.callWait b ∉
        (handleCreateBucket ⟨.error e, vRes, wRes, lRes⟩ st).2) ∧
    Ev.callList ∉ (handleCreateBucket ⟨.error e, vRes, wRes, lRes⟩ st).2 ∧
    emits (handleCreateBucket ⟨.error e, vRes, wRes, lRes⟩ st).2
      = [Step.creating, Step.error] ∧
    (handleCreateBucket ⟨.error e, vRes, wRes, lRes⟩ st).1.createProgress.step
      = Step.error := by
  unfold handleCreateBucket
  rw [if_neg hname]
  refine ⟨fun b => ?_, fun b => ?_, ?_, ?_, ?_⟩ <;> simp [emits, createCatch]

/-- Witness for C3: a submission rejected with `insufficient balance`
makes no verification or backend call and ends in the `error` phase. -/
theorem createBucket_submit_failure_stops_witness :
    emits (handleCreateBucket
        ⟨.error (.jsError "insufficient balance"), .ok sampleInfo, .ok (),
         .ok []⟩ sampleState).2 = [Step.creating, Step.error] ∧
    (handleCreateBucket
        ⟨.error (.jsError "insufficient balance"), .ok sampleInfo, .ok (),
         .ok []⟩ sampleState).1.createProgress.step = Step.error :=
  ⟨(createBucket_submit_failure_stops sampleState (.jsError "insufficient balance")
      (.ok sampleInfo) (.ok ()) (.ok []) (by decide)).2.2.2.1,
   (createBucket_submit_failure_stops sampleState (.jsError "insufficient balance")
      (.ok sampleInfo) (.ok ()) (.ok []) (by decide)).2.2.2.2⟩

/-- The first throw a `handleCreateBucket` run encounters, if any:
`createBucket`, then `verifyBucketCreation`, then
`waitForBackendBucketReady`. -/
def firstFailure (env : CreateEnv) : Option JsErr :=
  match env.createRes with
  | .error e => some e
  | .ok _ =>
    match env.verifyRes with
    | .error e => some e
    | .ok _ =>
      match env.waitRes with
      | .error e => some e
      | .ok _ => none

/-- Counterexample for C5: the creation workflow does not deliver typed
failure kinds.  When `createBucket` throws a non-`Error` value, the
failure surfaced to the progress observer and to the error banner is
exactly the generic fallback string `Failed to create bucket` — a
generic error carrying no kind from any taxonomy (no
`SubmissionRejected`/`OnChainRejected`/... value exists anywhere in the
code; failures are plain message strings). -/
theorem createBucket_generic_failure_counterexample :
    (handleCreateBucket ⟨.error .nonError, .ok sampleInfo, .ok (), .ok []⟩
        sampleState).1.createProgress
      = ⟨Step.error, "Failed to create bucket"⟩ ∧
    (handleCreateBucket ⟨.error .nonError, .ok sampleInfo, .ok (), .ok []⟩
        sampleState).1.errorMsg = some "Failed to create bucket" := by
  decide

/-- C5 as amended: on every failing exit path of `handleCreateBucket`
(a throw from submission, verification or the backend wait, the name
being non-empty so the run starts), the failure is not swallowed: before
the call resolves the progress observer's final emission is the `error`
phase, the final `createProgress` carries the `error` step together with
the thrown error's message (or the generic fallback
`Failed to create bucket` when the thrown value is not an `Error`), and
the same message is recorded in the page's error banner.  Failures are
surfaced as plain message strings; no typed failure-kind taxonomy exists
in the code. -/
theorem createBucket_failure_surfaced (st : PageState) (env : CreateEnv)
    (e : JsErr) (hname : jsTrim st.bucketName ≠ "")
    (hf : firstFailure env = some e) :
    (handleCreateBucket env st).1.createProgress
      = ⟨Step.error, errMsgOr "Failed to create bucket" e⟩ ∧
    (handleCreateBucket env st).1.errorMsg
      = some (errMsgOr "Failed to create bucket" e) ∧
    (emits (handleCreateBucket env st).2).getLast? = some Step.error := by
  obtain ⟨cRes, vRes, wRes, lRes⟩ := env
  unfold handleCreateBucket
  rw [if_neg hname]
  cases cRes <;> cases vRes <;> cases wRes <;>
    simp_all [firstFailure, createCatch, emits]

/-- Witness for C5 (amended) at a backend-wait timeout: the observer's
final emission is the `error` phase carrying the thrown message. -/
theorem createBucket_failure_surfaced_witness :
    (handleCreateBucket
        ⟨.ok "B1", .ok sampleInfo, .error (.jsError "backend timeout"), .ok []⟩
        sampleState).1.createProgress
      = ⟨Step.error, "backend timeout"⟩ ∧
    (handleCreateBucket
        ⟨.ok "B1", .ok sampleInfo, .error (.jsError "backend timeout"), .ok []⟩
        sampleState).1.errorMsg = some "backend timeout" ∧
    (emits (handleCreateBucket
        ⟨.ok "B1", .ok sampleInfo, .error (.jsError "backend timeout"), .ok []⟩
        sampleState).2).getLast? = some Step.error :=
  createBucket_failure_surfaced sampleState
    ⟨.ok "B1", .ok sampleInfo, .error (.jsError "backend timeout"), .ok []⟩
    (.jsError "backend timeout") (by decide) (by decide)

/-- C7: after a fully successful creation run (MSP connected, non-empty
name) the handler's event trace is exactly the phased emissions followed
by — after the `done` emission and before the handler returns — the
backend listing re-query (`loadBuckets`/`getBucketsFromMSP`), and the
cached listing ends up equal to the data returned by that re-query (the
workflow never wrote the cache in place); likewise a successful deletion
performs exactly its `deleteBucket` submission followed by the listing
re-query before returning, the cache again holding the re-queried
data. -/
theorem listing_requeried_after_success (st std : PageState)
    (bucketId delId : String) (info : BucketInfo) (data data2 : List Bucket)
    (hname : jsTrim st.bucketName ≠ "") (hmsp : st.isMspConnected = true)
    (hmspd : std.isMspConnected = true) :
    ((handleCreateBucket ⟨.ok bucketId, .ok info, .ok (), .ok data⟩ st).2
      = [.emitStep .creating "Creating bucket on-chain...",
         .callCreate st.bucketName,
         .emitStep .verifying "Verifying bucket on-chain...",
         .callVerify bucketId,
         .emitStep .waiting "Waiting for backend to index...",
         .callWait bucketId,
         .emitStep .done "Bucket created successfully!",
         .callList, .scheduleReset] ∧
     (handleCreateBucket ⟨.ok bucketId, .ok info, .ok (), .ok data⟩ st).1.buckets
       = data) ∧
    ((handleDeleteBucket true ⟨.ok (), .ok data2⟩ delId std).2
      = [.callDelete delId, .callList] ∧
     (handleDeleteBucket true ⟨.ok (), .ok data2⟩ delId std).1.buckets
       = data2) := by
  refine ⟨⟨?_, ?_⟩, ?_, ?_⟩
  · unfold handleCreateBucket
    rw [if_neg hname]
    simp [loadBuckets, hmsp]
  · unfold handleCreateBucket
    rw [if_neg hname]
    simp [loadBuckets, hmsp]
  · unfold handleDeleteBucket
    simp [loadBuckets, hmspd]
  · unfold handleDeleteBucket
    simp only [Bool.not_true, Bool.false_eq_true, if_false]
    simp [loadBuckets, hmspd]
    split <;> simp

/-- Witness for C7: creating `docs` and deleting `b2` from the sample
state re-query the listing before returning. -/
theorem listing_requeried_after_success_witness :
    (handleCreateBucket ⟨.ok "B1", .ok sampleInfo, .ok (),
        .ok [⟨"B1", "docs"⟩]⟩ sampleState).1.buckets = [⟨"B1", "docs"⟩] ∧
    (handleDeleteBucket true ⟨.ok (), .ok []⟩ "b2" sampleState).2
      = [.callDelete "b2", .callList] :=
  ⟨(listing_requeried_after_success sampleState sampleState "B1" "b2"
      sampleInfo [⟨"B1", "docs"⟩] [] (by decide) (by decide) (by decide)).1.2,
   (listing_requeried_after_success sampleState sampleState "B1" "b2"
      sampleInfo [⟨"B1", "docs"⟩] [] (by decide) (by decide) (by decide)).2.1⟩

/-- A page state in which a deletion of bucket `b1` is already in
flight: `isDeleting` marks `b1`, exactly as the first
`handleDeleteBucket` invocation set it before awaiting
`deleteBucket`. -/
def busyState : PageState :=
  { sampleState with isDeleting := some "b1" }

/-- Counterexample for C4: with a deletion of `b1` already in flight,
a second `handleDeleteBucket` invocation for the same `b1` (confirm
accepted) does not fail — it performs its own `deleteBucket` submission
and surfaces no error at all (no `ConflictingOperation` failure kind
exists anywhere in the code). -/
theorem conflicting_delete_counterexample :
    Ev.callDelete "b1"
      ∈ (handleDeleteBucket true ⟨.ok (), .ok []⟩ "b1" busyState).2 ∧
    (handleDeleteBucket true ⟨.ok (), .ok []⟩ "b1" busyState).1.errorMsg
      = none := by
  decide

/-- C4 as amended: the handlers carry no idempotency guard and no
`ConflictingOperation` failure kind.  A second concurrent invocation on
the same resource identity proceeds to perform its own submission:
`handleDeleteBucket`, once the confirm prompt is accepted, always calls
`deleteBucket` whatever the page state (in particular with the same
bucket already marked as deleting), and `handleCreateBucket` with a
non-empty trimmed name always calls `createBucket` whatever the current
`createProgress` (in particular mid-flight). -/
theorem no_idempotency_guard (st : PageState) (env : DeleteEnv)
    (cenv : CreateEnv) (bucketId : String)
    (hname : jsTrim st.bucketName ≠ "") :
    Ev.callDelete bucketId ∈ (handleDeleteBucket true env bucketId st).2 ∧
    Ev.callCreate st.bucketName ∈ (handleCreateBucket cenv st).2 := by
  constructor
  · obtain ⟨dRes, lRes⟩ := env
    unfold handleDeleteBucket
    cases dRes <;> simp [loadBuckets]
  · obtain ⟨cRes, vRes, wRes, lRes⟩ := cenv
    unfold handleCreateBucket
    rw [if_neg hname]
    cases cRes <;> cases vRes <;> cases wRes <;> simp [loadBuckets]

/-- Witness for C4 (amended) on the busy state: the second delete and a
fresh create both reach their submissions. -/
theorem no_idempotency_guard_witness :
    Ev.callDelete "b1"
      ∈ (handleDeleteBucket true ⟨.ok (), .ok []⟩ "b1" busyState).2 ∧
    Ev.callCreate "docs"
      ∈ (handleCreateBucket ⟨.ok "B1", .ok sampleInfo, .ok (), .ok []⟩
          busyState).2 :=
  no_idempotency_guard busyState ⟨.ok (), .ok []⟩
    ⟨.ok "B1", .ok sampleInfo, .ok (), .ok []⟩ "b1" (by decide)

/-- Concatenation splits the `initWasm` call count. -/
theorem initWasmCalls_append (a b : List AppEv) :
    initWasmCalls (a ++ b) = initWasmCalls a + initWasmCalls b := by
  simp [initWasmCalls, List.filter_append]

/-- Once `wasmInitialized` is set, every operation leaves it set and
performs no `initWasm` call. -/
theorem appStep_initialized (op : AppOp) (st : AppState) :
    (appStep op true st).1 = true ∧
    initWasmCalls (appStep op true st).2.2 = 0 := by
  cases op with
  | opConnectWallet env =>
    obtain ⟨iw, wr, ap⟩ := env
    cases wr <;> cases ap <;>
      simp [appStep, connectWallet, connectWalletTail, initWasmCalls]
  | opDisconnect => simp [appStep, disconnect, initWasmCalls]
  | opConnectMsp env =>
    obtain ⟨ok, info⟩ := env
    cases ok <;> simp [appStep, connectMsp, initWasmCalls]
  | opAuthenticate a =>
    cases a <;> simp [appStep, authenticateUser, initWasmCalls]
  | opRestoreSession env =>
    obtain ⟨p, iw, rr, ap, ia, pr, mo, inf⟩ := env
    cases p with
    | none => simp [appStep, restoreSession, initWasmCalls]
    | some a0 =>
      cases rr with
      | error e =>
        simp [appStep, restoreSession, restoreSessionTail, initWasmCalls]
      | ok o =>
        cases o <;> cases ap <;> cases ia <;> cases mo <;>
          simp [appStep, restoreSession, restoreSessionTail, initWasmCalls]

/-- From a clear `wasmInitialized` flag, an operation whose own
`initWasm` succeeds performs at most one `initWasm` call, and performs
none at all when it leaves the flag clear. -/
theorem appStep_uninitialized (op : AppOp) (st : AppState)
    (h : opInitOk op = true) :
    initWasmCalls (appStep op false st).2.2 ≤ 1 ∧
    ((appStep op false st).1 = false →
      initWasmCalls (appStep op false st).2.2 = 0) := by
  cases op with
  | opConnectWallet env =>
    obtain ⟨iw, wr, ap⟩ := env
    simp [opInitOk] at h
    subst h
    cases wr <;> cases ap <;>
      simp [appStep, connectWallet, connectWalletTail, initWasmCalls]
  | opDisconnect => simp [appStep, disconnect, initWasmCalls]
  | opConnectMsp env =>
    obtain ⟨ok, info⟩ := env
    cases ok <;> simp [appStep, connectMsp, initWasmCalls]
  | opAuthenticate a =>
    cases a <;> simp [appStep, authenticateUser, initWasmCalls]
  | opRestoreSession env =>
    obtain ⟨p, iw, rr, ap, ia, pr, mo, inf⟩ := env
    simp [opInitOk] at h
    subst h
    cases p with
    | none => simp [appStep, restoreSession, initWasmCalls]
    | some a0 =>
      cases rr with
      | error e =>
        simp [appStep, restoreSession, restoreSessionTail, initWasmCalls]
      | ok o =>
        cases o <;> cases ap <;> cases ia <;> cases mo <;>
          simp [appStep, restoreSession, restoreSessionTail, initWasmCalls]

/-- A run starting with the flag set keeps it set and never calls
`initWasm` again. -/
theorem appRunFrom_initialized (ops : List AppOp) (st : AppState) :
    (appRunFrom true st ops).1 = true ∧
    initWasmCalls (appRunFrom true st ops).2.2 = 0 := by
  induction ops generalizing st with
  | nil => simp [appRunFrom, initWasmCalls]
  | cons op ops ih =>
    have h1 := appStep_initialized op st
    simp only [appRunFrom]
    rw [h1.1]
    refine ⟨(ih _).1, ?_⟩
    rw [initWasmCalls_append, h1.2, (ih _).2]

/-- A run starting with the flag clear, in which every operation's own
`initWasm` call succeeds, performs at most one `initWasm` call in
total. -/
theorem appRunFrom_uninitialized (ops : List AppOp) (st : AppState)
    (h : ∀ op ∈ ops, opInitOk op = true) :
    initWasmCalls (appRunFrom false st ops).2.2 ≤ 1 := by
  induction ops generalizing st with
  | nil => simp [appRunFrom, initWasmCalls]
  | cons op ops ih =>
    have hop := h op (List.mem_cons_self op ops)
    have h1 := appStep_uninitialized op st hop
    simp only [appRunFrom]
    rw [initWasmCalls_append]
    cases hw : (appStep op false st).1 with
    | true =>
      have h2 := appRunFrom_initialized ops (appStep op false st).2.1
      omega
    | false =>
      have h0 := h1.2 hw
      have h2 := ih (appStep op false st).2.1 (fun o ho => h o (List.mem_cons_of_mem op ho))
      omega

/-- Counterexample for C8: `initWasm` can be invoked more than once per
process.  If a first `connectWallet` invocation's `initWasm` throws (the
flag stays clear because `wasmInitialized = true` runs only after the
await succeeds), a second `connectWallet` invokes `initWasm` again: the
trace of the two-invocation run holds two `initWasm` calls. -/
theorem initWasm_twice_counterexample :
    initWasmCalls (appRun [AppOp.opConnectWallet cwEnvInitFails,
                           AppOp.opConnectWallet cwEnvOk]).2.2 = 2 := by
  decide

/-- C8 as amended: the WASM bootstrap is init-once as long as `initWasm`
itself does not throw.  Across every sequence of `connectWallet`
invocations and mount-time session restores in which each operation's
own `initWasm` call succeeds, `initWasm` is invoked at most once per
process; and once the `wasmInitialized` flag is set, every invocation of
either operation skips initialization entirely (and leaves the flag
set).  A failed `initWasm` leaves the flag clear, so initialization is
retried by the next invocation. -/
theorem initWasm_init_once (ops : List AppOp) (op : AppOp) (st : AppState)
    (h : ∀ o ∈ ops, opInitOk o = true) :
    initWasmCalls (appRun ops).2.2 ≤ 1 ∧
    initWasmCalls (appStep op true st).2.2 = 0 ∧
    (appStep op true st).1 = true := by
  exact ⟨appRunFrom_uninitialized ops initialAppState h,
         (appStep_initialized op st).2, (appStep_initialized op st).1⟩

/-- Witness for C8 (amended): a restore followed by two `connectWallet`
invocations, all with `initWasm` succeeding, and a further
`connectWallet` from an initialized process. -/
theorem initWasm_init_once_witness :
    initWasmCalls (appRun [AppOp.opRestoreSession
        ⟨none, true, .ok none, true, false, none, true, "i"⟩,
      AppOp.opConnectWallet cwEnvOk,
      AppOp.opConnectWallet cwEnvOk]).2.2 ≤ 1 ∧
    initWasmCalls (appStep (AppOp.opConnectWallet cwEnvOk) true
        initialAppState).2.2 = 0 ∧
    (appStep (AppOp.opConnectWallet cwEnvOk) true initialAppState).1
      = true :=
  initWasm_init_once [AppOp.opRestoreSession
      ⟨none, true, .ok none, true, false, none, true, "i"⟩,
    AppOp.opConnectWallet cwEnvOk, AppOp.opConnectWallet cwEnvOk]
    (AppOp.opConnectWallet cwEnvOk) initialAppState (by decide)

/-- The C10 invariant: a connected wallet always has an address. -/
def walletInv (st : AppState) : Prop :=
  st.isWalletConnected = true → st.address ≠ none

/-- Every `AppProvider` operation preserves the wallet/address
invariant: each path that sets `isWalletConnected` also stores a
non-null address in the same `setState`. -/
theorem walletInv_appStep (op : AppOp) (w : Bool) (st : AppState)
    (h : walletInv st) : walletInv (appStep op w st).2.1 := by
  cases op with
  | opConnectWallet env =>
    obtain ⟨iw, wr, ap⟩ := env
    cases iw <;> cases wr <;> cases ap <;> cases w <;>
      simp_all [appStep, connectWallet, connectWalletTail, walletInv]
  | opDisconnect =>
    simp [appStep, disconnect, walletInv, initialAppState]
  | opConnectMsp env =>
    obtain ⟨ok, info⟩ := env
    cases ok <;> simp_all [appStep, connectMsp, walletInv]
  | opAuthenticate a =>
    cases a <;> simp_all [appStep, authenticateUser, walletInv]
  | opRestoreSession env =>
    obtain ⟨p, iw, rr, ap, ia, pr, mo, inf⟩ := env
    cases p with
    | none => simp_all [appStep, restoreSession, walletInv]
    | some a0 =>
      cases rr with
      | error e =>
        cases iw <;> cases w <;>
          simp_all [appStep, restoreSession, restoreSessionTail, walletInv]
      | ok o =>
        cases o <;> cases iw <;> cases w <;> cases ap <;> cases ia <;>
            cases mo <;>
          simp_all [appStep, restoreSession, restoreSessionTail, walletInv]

/-- Runs preserve the wallet/address invariant. -/
theorem walletInv_appRunFrom (ops : List AppOp) (w : Bool) (st : AppState)
    (h : walletInv st) : walletInv (appRunFrom w st ops).2.1 := by
  induction ops generalizing w st with
  | nil => simpa [appRunFrom]
  | cons op ops ih =>
    simp only [appRunFrom]
    exact ih _ _ (walletInv_appStep op w st h)

/-- C10: in every `AppProvider` state reachable from the initial state
by any sequence of `connectWallet`, `disconnect`, `connectMsp`,
`authenticateUser` and mount-time session-restore invocations,
`isWalletConnected = true` implies the address is non-null; and
`disconnect` always resets the context state to exactly the initial
state (all three flags false; address, MSP info and user profile null),
whatever the prior state. -/
theorem appState_invariants (ops : List AppOp) (w : Bool) (st : AppState)
    (hw : (appRun ops).2.1.isWalletConnected = true) :
    (appRun ops).2.1.address ≠ none ∧
    appStep AppOp.opDisconnect w st = (w, initialAppState, []) :=
  ⟨walletInv_appRunFrom ops false initialAppState
      (by simp [walletInv, initialAppState]) hw, rfl⟩

/-- Witness for C10: after a successful `connectWallet` the wallet is
connected and the address is indeed non-null; `disconnect` from that
state is exactly the initial state. -/
theorem appState_invariants_witness :
    (appRun [AppOp.opConnectWallet cwEnvOk]).2.1.address ≠ none ∧
    appStep AppOp.opDisconnect true
        (appRun [AppOp.opConnectWallet cwEnvOk]).2.1
      = (true, initialAppState, []) :=
  appState_invariants [AppOp.opConnectWallet cwEnvOk] true
    (appRun [AppOp.opConnectWallet cwEnvOk]).2.1 (by decide)
